import Mathlib

/-
  Verification development for the calendar-sync subsystem of the
  parallel-task-web repository.

  Shallow embedding of:
    - src/lib/google-calendar.ts  (event payload construction, token refresh)
    - src/app/api/calendar/sync/route.ts  (getValidTokens, POST, DELETE)

  Conventions of the embedding:
    - Date-bearing strings (due_date, due_time and the strings fed to the JS
      Date constructor) are modelled as `List Char`, so that character-level
      operations (`includes('T')`, `split('T')[0]`) are ordinary list
      functions.  Opaque identifiers and tokens are modelled as `String`.
    - A JavaScript `Date` value is modelled symbolically by `JSInstant`:
      `new Date(s)` becomes `JSInstant.parsed s 0` and millisecond arithmetic
      (`d.getTime() + ms`) adds to the offset.  `new Date()` / `Date.now()`
      becomes `JSInstant.nowMs 0`.  This keeps the civil-calendar-to-epoch
      conversion uninterpreted while preserving every equality and duration
      relation the code establishes.
    - Absolute times compared by the route (`expires_at`, `now`) are
      milliseconds since the epoch, modelled as `Int`.
    - Fallible external calls return `Option`: `none` models a thrown
      exception (propagating to the nearest enclosing try/catch).
    - The database visible to one sync request is the credential row of the
      requesting user and the task row of the requested task id, plus the
      append-only sync log.
-/

namespace PTW

/-! ### JavaScript truthiness and date-string helpers -/

/-- JS truthiness of a possibly-absent string: `undefined`, `null` and the
empty string are all falsy (`task.dueDate && task.dueTime` etc.). -/
def truthy : Option (List Char) → Bool
  | none => false
  | some s => !s.isEmpty

/-- Model of `dateStr.includes('T')`. -/
def containsT : List Char → Bool
  | [] => false
  | c :: rest => c = 'T' || containsT rest

/-- Model of `dateStr.split('T')[0]`: the prefix before the first `'T'`. -/
def splitAtT : List Char → List Char
  | [] => []
  | c :: rest => if c = 'T' then [] else c :: splitAtT rest

/-- `formatDateForAllDay` from google-calendar.ts (defined identically inside
`createCalendarEvent` and `updateCalendarEvent`):
if the string contains `'T'` (ISO format with time) keep only the date part,
otherwise return it unchanged. -/
def formatDateForAllDay (dateStr : List Char) : List Char :=
  if containsT dateStr then splitAtT dateStr else dateStr

/-- Model of `task.duration || 60`: JS `||` replaces every falsy value, so
both an absent duration and a duration of `0` yield the default 60. -/
def jsDurationOr60 : Option Nat → Nat
  | none => 60
  | some n => if n = 0 then 60 else n

/-! ### Symbolic JS instants -/

/-- A JS `Date` value, kept symbolic: either parsed from a string plus a
millisecond offset, or "now" plus a millisecond offset. -/
inductive JSInstant where
  | parsed (s : List Char) (offsetMs : Int)
  | nowMs (offsetMs : Int)
deriving DecidableEq, Repr

/-- `new Date(d.getTime() + ms)`. -/
def JSInstant.addMs : JSInstant → Int → JSInstant
  | .parsed s o, d => .parsed s (o + d)
  | .nowMs o, d => .nowMs (o + d)

/-! ### Event payloads (Schema$EventDateTime / Schema$Event) -/

/-- `calendar_v3.Schema$EventDateTime`: either a `dateTime` (timed event,
with a timezone) or a `date` (all-day event). -/
structure EventDateTime where
  dateTime : Option JSInstant := none
  date : Option (List Char) := none
  timeZone : Option String := none
deriving DecidableEq, Repr

/-- The slice of `calendar_v3.Schema$Event` the code constructs.  `start` and
`endTime` are optional because `updateCalendarEvent` leaves them undefined
when the task has no due date. -/
structure Event where
  summary : String
  description : String
  start : Option EventDateTime
  endTime : Option EventDateTime
  colorId : String
  status : String
deriving DecidableEq, Repr

/-- `TaskEvent` interface from google-calendar.ts. -/
structure TaskEvent where
  id : Option String := none
  title : String
  description : Option String := none
  dueDate : Option (List Char) := none
  dueTime : Option (List Char) := none
  duration : Option Nat := none
  status : String
  priority : Nat
deriving DecidableEq, Repr

/-- Helper `getPriorityColorId` from google-calendar.ts. -/
def getPriorityColorId (priority : Nat) : String :=
  match priority with
  | 4 => "11"
  | 3 => "6"
  | 2 => "5"
  | 1 => "8"
  | _ => "1"

/-- Status-glyph table of `formatEventDescription`. -/
def statusEmoji (status : String) : String :=
  if status = "backlog" then "📋"
  else if status = "todo" then "📝"
  else if status = "in_progress" then "🔄"
  else if status = "done" then "✅"
  else if status = "cancelled" then "❌"
  else "📋"

/-- Priority-label table of `formatEventDescription`. -/
def priorityText (priority : Nat) : String :=
  match priority with
  | 0 => "No priority"
  | 1 => "Low"
  | 2 => "Medium"
  | 3 => "High"
  | 4 => "Urgent"
  | _ => "No priority"

/-- Helper `formatEventDescription` from google-calendar.ts. -/
def formatEventDescription (task : TaskEvent) : String :=
  let base := statusEmoji task.status ++ " Status: "
      ++ (task.status.replace "_" " ") ++ "\n"
      ++ "🎯 Priority: " ++ priorityText task.priority ++ "\n"
  let withDesc :=
    match task.description with
    | some d => if d.isEmpty then base else base ++ "\n" ++ d
    | none => base
  withDesc ++ "\n\n---\nSynced from Parallel Task"

/-- The fixed timezone attached to every timed payload. -/
def parisTZ : String := "Europe/Paris"

/-- Start/end construction of `createCalendarEvent` (google-calendar.ts
lines 128-150): timed event when both due date and due time are truthy,
all-day event when only the due date is truthy, otherwise "now for one
hour". -/
def createStartEnd (task : TaskEvent) : EventDateTime × EventDateTime :=
  if truthy task.dueDate && truthy task.dueTime then
    let dateOnly := formatDateForAllDay (task.dueDate.getD [])
    let startDateTime : JSInstant :=
      .parsed (dateOnly ++ ('T' :: (task.dueTime.getD [] ++ [':', '0', '0']))) 0
    let durationMs : Int := (jsDurationOr60 task.duration : Int) * 60 * 1000
    let endDateTime := startDateTime.addMs durationMs
    ({ dateTime := some startDateTime, timeZone := some parisTZ },
     { dateTime := some endDateTime, timeZone := some parisTZ })
  else if truthy task.dueDate then
    let dateOnly := formatDateForAllDay (task.dueDate.getD [])
    ({ date := some dateOnly }, { date := some dateOnly })
  else
    ({ dateTime := some (.nowMs 0), timeZone := some parisTZ },
     { dateTime := some (.nowMs 3600000), timeZone := some parisTZ })

/-- The `Schema$Event` body built by `createCalendarEvent`. -/
def createEventPayload (task : TaskEvent) : Event :=
  let se := createStartEnd task
  { summary := task.title
    description := formatEventDescription task
    start := some se.1
    endTime := some se.2
    colorId := getPriorityColorId task.priority
    status := if task.status = "cancelled" then "cancelled" else "confirmed" }

/-- Start/end construction of `updateCalendarEvent` (google-calendar.ts
lines 191-209): identical to the create path except that a task with no
truthy due date leaves both fields undefined. -/
def updateStartEnd (task : TaskEvent) :
    Option EventDateTime × Option EventDateTime :=
  if truthy task.dueDate && truthy task.dueTime then
    let dateOnly := formatDateForAllDay (task.dueDate.getD [])
    let startDateTime : JSInstant :=
      .parsed (dateOnly ++ ('T' :: (task.dueTime.getD [] ++ [':', '0', '0']))) 0
    let durationMs : Int := (jsDurationOr60 task.duration : Int) * 60 * 1000
    let endDateTime := startDateTime.addMs durationMs
    (some { dateTime := some startDateTime, timeZone := some parisTZ },
     some { dateTime := some endDateTime, timeZone := some parisTZ })
  else if truthy task.dueDate then
    let dateOnly := formatDateForAllDay (task.dueDate.getD [])
    (some { date := some dateOnly }, some { date := some dateOnly })
  else
    (none, none)

/-- The `Schema$Event` body built by `updateCalendarEvent`. -/
def updateEventPayload (task : TaskEvent) : Event :=
  let se := updateStartEnd task
  { summary := task.title
    description := formatEventDescription task
    start := se.1
    endTime := se.2
    colorId := getPriorityColorId task.priority
    status := if task.status = "cancelled" then "cancelled" else "confirmed" }

/-! ### The external calendar -/

/-- One event stored by the external calendar service. -/
structure CalEvent where
  id : String
  body : Event
deriving DecidableEq, Repr

/-- The external calendar: the set of currently existing events on the
user's primary calendar. -/
structure Calendar where
  events : List CalEvent
deriving DecidableEq, Repr

/-- Does an event with this id currently exist? -/
def Calendar.hasEvent (cal : Calendar) (eventId : String) : Bool :=
  cal.events.any (fun e => e.id = eventId)

/-- `calendar.events.insert`: the service stores the body and assigns a
fresh id (supplied by the environment).  Always succeeds. -/
def Calendar.insert (cal : Calendar) (freshId : String) (body : Event) :
    Calendar :=
  { events := { id := freshId, body := body } :: cal.events }

/-- Patch semantics: fields present in the request body overwrite the stored
ones; `start`/`end` are only overwritten when defined in the request. -/
def patchBody (old new : Event) : Event :=
  { summary := new.summary
    description := new.description
    start := match new.start with | some s => some s | none => old.start
    endTime := match new.endTime with | some e => some e | none => old.endTime
    colorId := new.colorId
    status := new.status }

/-- `calendar.events.patch`: succeeds (returning the updated calendar) iff
the event exists; a missing event makes the call throw (`none`). -/
def Calendar.patch (cal : Calendar) (eventId : String) (body : Event) :
    Option Calendar :=
  if cal.hasEvent eventId then
    some { events := cal.events.map
            (fun e => if e.id = eventId then { e with body := patchBody e.body body } else e) }
  else
    none

/-- `calendar.events.delete`: succeeds iff the event exists; deleting a
missing event throws (`none`). -/
def Calendar.deleteEvent (cal : Calendar) (eventId : String) : Option Calendar :=
  if cal.hasEvent eventId then
    some { events := cal.events.filter (fun e => !(e.id = eventId : Bool)) }
  else
    none

/-- `createCalendarEvent` from google-calendar.ts: build the payload, insert
it, return the id the service assigned. -/
def createCalendarEvent (cal : Calendar) (freshId : String) (task : TaskEvent) :
    String × Calendar :=
  (freshId, cal.insert freshId (createEventPayload task))

/-- `updateCalendarEvent` from google-calendar.ts: build the payload and
patch the existing event; `none` models the thrown not-found error. -/
def updateCalendarEvent (cal : Calendar) (eventId : String) (task : TaskEvent) :
    Option Calendar :=
  cal.patch eventId (updateEventPayload task)

/-- `deleteCalendarEvent` from google-calendar.ts. -/
def deleteCalendarEvent (cal : Calendar) (eventId : String) : Option Calendar :=
  cal.deleteEvent eventId

/-! ### Credential store and token refresh (route.ts `getValidTokens`) -/

/-- A `google_oauth_tokens` row (one per user). -/
structure OAuthTokens where
  user_id : String
  access_token : String
  refresh_token : String
  expires_at : Int
  scope : String
  token_type : String
  updated_at : Int
deriving DecidableEq, Repr

/-- The result of `refreshAccessToken` (google-calendar.ts lines 69-86): the
refresh response carries only a new access token and expiry — it has no
refresh-token field at all. -/
structure RefreshedTokens where
  access_token : String
  expiry_date : Int
deriving DecidableEq, Repr

/-- A `tasks` row, restricted to the columns the sync route reads/writes. -/
structure TaskRow where
  id : String
  title : String
  description : Option String
  due_date : Option (List Char)
  due_time : Option (List Char)
  duration : Option Nat
  status : String
  priority : Nat
  google_calendar_event_id : Option String
  updated_at : Int
deriving DecidableEq, Repr

/-- A `calendar_sync_log` row (append-only). -/
structure LogEntry where
  user_id : String
  task_id : String
  event_id : Option String
  action : String
  status : String
deriving DecidableEq, Repr

/-- The database state one sync request can observe: the requesting user's
credential row (zero or one), the requested task's row (zero or one), and
the sync log. -/
structure DB where
  tokens : Option OAuthTokens
  task : Option TaskRow
  syncLog : List LogEntry
deriving DecidableEq, Repr

/-- The ambient environment of one request: the current time, the outcome
the external service would give a refresh attempt (`none` = the call
throws), and the id it would assign a newly inserted event. -/
structure Env where
  now : Int
  refreshResult : Option RefreshedTokens
  freshEventId : String
deriving DecidableEq, Repr

/-- `getValidTokens` from route.ts (lines 22-63).  Returns the tokens handed
to the caller together with the database state after the call.  On the fast
path (`expires_at > now`, strict) the stored row is returned unchanged with
no write.  On the expired path a successful refresh writes `access_token`,
`expires_at` and `updated_at` back to the row and returns the spread
`{...tokens, access_token: newTokens.access_token}` — note the returned
object keeps the stale `expires_at`.  A failed refresh is caught and yields
`none` with no write. -/
def getValidTokens (env : Env) (db : DB) : Option OAuthTokens × DB :=
  match db.tokens with
  | none => (none, db)
  | some tokens =>
    if tokens.expires_at ≤ env.now then
      match env.refreshResult with
      | some newTokens =>
        let stored := { tokens with
          access_token := newTokens.access_token
          expires_at := newTokens.expiry_date
          updated_at := env.now }
        (some { tokens with access_token := newTokens.access_token },
         { db with tokens := some stored })
      | none => (none, db)
    else
      (some tokens, db)

/-! ### The sync route handlers -/

/-- The distinct responses of `POST /api/calendar/sync` past authentication:
401-needsAuth, 404 task not found, the three success bodies, and the
catch-all 500. -/
inductive SyncResponse where
  | needsAuth
  | taskNotFound
  | deleted
  | updated (eventId : String)
  | created (eventId : String)
  | serverError
deriving DecidableEq, Repr

/-- How many calls of each kind were issued to the external calendar
service during one request (attempts, whether or not they succeeded). -/
structure ExtCalls where
  creates : Nat
  patches : Nat
  deletes : Nat
deriving DecidableEq, Repr

/-- No external calls. -/
def ExtCalls.zero : ExtCalls := ⟨0, 0, 0⟩

/-- Componentwise sum of call counters. -/
def ExtCalls.plus (a b : ExtCalls) : ExtCalls :=
  ⟨a.creates + b.creates, a.patches + b.patches, a.deletes + b.deletes⟩

/-- Outcome of one request: response, database, external calendar, and the
external calls attempted. -/
structure PostResult where
  resp : SyncResponse
  db : DB
  cal : Calendar
  calls : ExtCalls
deriving DecidableEq, Repr

/-- The `taskEvent` object the POST handler builds from the task row
(route.ts lines 151-160). -/
def toTaskEvent (task : TaskRow) : TaskEvent :=
  { id := some task.id
    title := task.title
    description := task.description
    dueDate := task.due_date
    dueTime := task.due_time
    duration := task.duration
    status := task.status
    priority := task.priority }

/-- `POST /api/calendar/sync` (route.ts lines 66-212), modelled from the
point where the user is authenticated and `taskId` is present.  Control
flow follows the source exactly:
1. `getValidTokens`; `null` → 401 `needsAuth` before any task read,
   external call or task write.
2. read the task row; missing → 404.
3. `action === 'delete' && eventId`: external delete (an error propagates
   to the outer catch → 500 with no write), then clear
   `google_calendar_event_id`, append a delete/success log row.
4. `eventId` non-null: `updateCalendarEvent` (patch); an error — in
   particular not-found — propagates to the outer catch → 500 with no
   write, the event id is left in place; on success append an
   update/success log row.
5. `eventId` null: `createCalendarEvent`, then write the returned id into
   the task row unconditionally, append a create/success log row. -/
def syncPOST (env : Env) (userId taskId : String) (action : Option String)
    (db : DB) (cal : Calendar) : PostResult :=
  match getValidTokens env db with
  | (none, db1) => ⟨.needsAuth, db1, cal, .zero⟩
  | (some _tokens, db1) =>
    match db1.task with
    | none => ⟨.taskNotFound, db1, cal, .zero⟩
    | some task =>
      match task.google_calendar_event_id with
      | some eventId =>
        if action = some "delete" then
          match deleteCalendarEvent cal eventId with
          | none => ⟨.serverError, db1, cal, ⟨0, 0, 1⟩⟩
          | some cal2 =>
            let db2 := { db1 with task := some { task with
              google_calendar_event_id := none, updated_at := env.now } }
            let db3 := { db2 with syncLog := db2.syncLog ++
              [{ user_id := userId, task_id := taskId,
                 event_id := some eventId, action := "delete",
                 status := "success" }] }
            ⟨.deleted, db3, cal2, ⟨0, 0, 1⟩⟩
        else
          match updateCalendarEvent cal eventId (toTaskEvent task) with
          | none => ⟨.serverError, db1, cal, ⟨0, 1, 0⟩⟩
          | some cal2 =>
            let db2 := { db1 with syncLog := db1.syncLog ++
              [{ user_id := userId, task_id := taskId,
                 event_id := some eventId, action := "update",
                 status := "success" }] }
            ⟨.updated eventId, db2, cal2, ⟨0, 1, 0⟩⟩
      | none =>
        let created := createCalendarEvent cal env.freshEventId (toTaskEvent task)
        let eventId := created.1
        let cal2 := created.2
        let db2 := { db1 with task := some { task with
          google_calendar_event_id := some eventId, updated_at := env.now } }
        let db3 := { db2 with syncLog := db2.syncLog ++
          [{ user_id := userId, task_id := taskId,
             event_id := some eventId, action := "create",
             status := "success" }] }
        ⟨.created eventId, db3, cal2, ⟨1, 0, 0⟩⟩

/-- Responses of `DELETE /api/calendar/sync`. -/
inductive UnsyncResponse where
  | ok
  | serverError
deriving DecidableEq, Repr

/-- Outcome of one unsync request. -/
structure UnsyncResult where
  resp : UnsyncResponse
  db : DB
  cal : Calendar
  calls : ExtCalls
deriving DecidableEq, Repr

/-- `DELETE /api/calendar/sync` (route.ts lines 215-274), modelled past
authentication with `taskId` present.  Reads the task row; when it holds an
event id and the user has valid tokens it attempts the external delete
inside its own try/catch, swallowing any error ("Event might already be
deleted"); with no valid tokens the external call is skipped.  In every
case it then clears `google_calendar_event_id` on the task row and responds
with success. -/
def syncDELETE (env : Env) (db : DB) (cal : Calendar) : UnsyncResult :=
  let taskEventId := db.task.bind (fun t => t.google_calendar_event_id)
  let afterExt : DB × Calendar × ExtCalls :=
    match taskEventId with
    | some eventId =>
      match getValidTokens env db with
      | (some _tokens, db1) =>
        match deleteCalendarEvent cal eventId with
        | some cal2 => (db1, cal2, ⟨0, 0, 1⟩)
        | none => (db1, cal, ⟨0, 0, 1⟩)
      | (none, db1) => (db1, cal, .zero)
    | none => (db, cal, .zero)
  let clearedTask := afterExt.1.task.map
    (fun t => { t with google_calendar_event_id := none, updated_at := env.now })
  let db2 := { afterExt.1 with task := clearedTask }
  ⟨.ok, db2, afterExt.2.1, afterExt.2.2⟩

/-! ### Interleaving model of concurrent sync requests

The POST handler is a sequence of awaited operations against the shared
durable store and the external calendar.  `SyncPC` records where one
request stands between awaits for the non-delete (`action` absent) path;
the data each step works from is exactly what the code has in scope at that
point — in particular the create/patch decision at `gotTask` is taken from
the task row **as read earlier**, and the write-back of the created event
id is an unconditional `update ... eq('id', taskId)` with no comparison
against the row's current value. -/

/-- Program counter of one in-flight sync (non-delete) request. -/
inductive SyncPC where
  | start
  | gotTokens
  | gotTask (taskRead : TaskRow)
  | createdEvent (eventId : String)
  | wroteRow (eventId : String)
  | patchedEvent (eventId : String)
  | halted (r : SyncResponse)
deriving DecidableEq, Repr

/-- One awaited operation of the POST handler (sync action). -/
def syncStep (env : Env) (userId taskId : String) (pc : SyncPC)
    (db : DB) (cal : Calendar) : SyncPC × DB × Calendar × ExtCalls :=
  match pc with
  | .start =>
    match getValidTokens env db with
    | (none, db1) => (.halted .needsAuth, db1, cal, .zero)
    | (some _tokens, db1) => (.gotTokens, db1, cal, .zero)
  | .gotTokens =>
    match db.task with
    | none => (.halted .taskNotFound, db, cal, .zero)
    | some task => (.gotTask task, db, cal, .zero)
  | .gotTask task =>
    match task.google_calendar_event_id with
    | some eventId =>
      match updateCalendarEvent cal eventId (toTaskEvent task) with
      | none => (.halted .serverError, db, cal, ⟨0, 1, 0⟩)
      | some cal2 => (.patchedEvent eventId, db, cal2, ⟨0, 1, 0⟩)
    | none =>
      let created := createCalendarEvent cal env.freshEventId (toTaskEvent task)
      (.createdEvent created.1, db, created.2, ⟨1, 0, 0⟩)
  | .createdEvent eventId =>
    let written := db.task.map (fun t => { t with
      google_calendar_event_id := some eventId, updated_at := env.now })
    (.wroteRow eventId, { db with task := written }, cal, .zero)
  | .wroteRow eventId =>
    let db2 := { db with syncLog := db.syncLog ++
      [{ user_id := userId, task_id := taskId, event_id := some eventId,
         action := "create", status := "success" }] }
    (.halted (.created eventId), db2, cal, .zero)
  | .patchedEvent eventId =>
    let db2 := { db with syncLog := db.syncLog ++
      [{ user_id := userId, task_id := taskId, event_id := some eventId,
         action := "update", status := "success" }] }
    (.halted (.updated eventId), db2, cal, .zero)
  | .halted r => (.halted r, db, cal, .zero)

/-- Shared state of two in-flight sync requests A and B for the same task. -/
structure TwoSyncs where
  pcA : SyncPC
  pcB : SyncPC
  db : DB
  cal : Calendar
  calls : ExtCalls
deriving DecidableEq, Repr

/-- Let request A (`true`) or request B (`false`) perform its next awaited
operation. -/
def interleaveStep (envA envB : Env) (userId taskId : String) (s : TwoSyncs)
    (which : Bool) : TwoSyncs :=
  if which then
    let r := syncStep envA userId taskId s.pcA s.db s.cal
    ⟨r.1, s.pcB, r.2.1, r.2.2.1, s.calls.plus r.2.2.2⟩
  else
    let r := syncStep envB userId taskId s.pcB s.db s.cal
    ⟨s.pcA, r.1, r.2.1, r.2.2.1, s.calls.plus r.2.2.2⟩

/-- Run a schedule (a list of thread choices) from a given shared state. -/
def runSchedule (envA envB : Env) (userId taskId : String)
    (sched : List Bool) (s : TwoSyncs) : TwoSyncs :=
  sched.foldl (interleaveStep envA envB userId taskId) s

/-- Initial shared state of two concurrent syncs. -/
def initTwoSyncs (db : DB) (cal : Calendar) : TwoSyncs :=
  ⟨.start, .start, db, cal, .zero⟩

/-- The racing schedule: both requests read tokens and the task row before
either touches the external calendar, then each finishes alone. -/
def bothReadFirstSchedule : List Bool :=
  [true, true, false, false, true, true, true, false, false, false]

/-! ### Specification-side definitions (for refinement comparison) -/

/-- Date portion in the sense of the specification: the characters of a
date string strictly before the first `'T'` time separator (the whole
string when no time component is embedded).  Stated independently of
`formatDateForAllDay` to compare the code against the spec's words. -/
def datePortionSpec (s : List Char) : List Char :=
  s.takeWhile (fun c => c != 'T')

/-! ### Helper lemmas -/

theorem datePortionSpec_cons_of_ne (c : Char) (rest : List Char)
    (hc : c ≠ 'T') : datePortionSpec (c :: rest) = c :: datePortionSpec rest := by
  simp [datePortionSpec, List.takeWhile_cons, bne_iff_ne, hc]

theorem datePortionSpec_cons_T (rest : List Char) :
    datePortionSpec ('T' :: rest) = [] := by
  simp [datePortionSpec, List.takeWhile_cons]

theorem splitAtT_eq_datePortionSpec (s : List Char) :
    splitAtT s = datePortionSpec s := by
  induction s with
  | nil => rfl
  | cons c rest ih =>
    by_cases h : c = 'T'
    · subst h
      simp [splitAtT, datePortionSpec_cons_T]
    · rw [datePortionSpec_cons_of_ne c rest h]
      simp [splitAtT, h, ih]

theorem datePortionSpec_of_not_containsT (s : List Char)
    (h : containsT s = false) : datePortionSpec s = s := by
  induction s with
  | nil => rfl
  | cons c rest ih =>
    have hc : c ≠ 'T' := by
      intro hcT
      rw [hcT] at h
      simp [containsT] at h
    have hr : containsT rest = false := by
      simpa [containsT, hc] using h
    rw [datePortionSpec_cons_of_ne c rest hc, ih hr]

theorem formatDateForAllDay_eq_datePortionSpec (s : List Char) :
    formatDateForAllDay s = datePortionSpec s := by
  unfold formatDateForAllDay
  by_cases h : containsT s = true
  · simp [h, splitAtT_eq_datePortionSpec]
  · simp only [Bool.not_eq_true] at h
    simp [h, datePortionSpec_of_not_containsT s h]

theorem datePortionSpec_length_lt (s : List Char) (h : containsT s = true) :
    (datePortionSpec s).length < s.length := by
  induction s with
  | nil => simp [containsT] at h
  | cons c rest ih =>
    by_cases hc : c = 'T'
    · subst hc
      rw [datePortionSpec_cons_T]
      exact Nat.succ_pos rest.length
    · have hr : containsT rest = true := by
        simpa [containsT, hc] using h
      rw [datePortionSpec_cons_of_ne c rest hc, List.length_cons,
        List.length_cons]
      exact Nat.succ_lt_succ (ih hr)

theorem datePortionSpec_ne_self_of_containsT (s : List Char)
    (h : containsT s = true) : datePortionSpec s ≠ s := by
  intro heq
  have := datePortionSpec_length_lt s h
  rw [heq] at this
  exact lt_irrefl _ this

theorem getValidTokens_none_frame (env : Env) (db : DB)
    (h : (getValidTokens env db).1 = none) : (getValidTokens env db).2 = db := by
  unfold getValidTokens at *
  cases htok : db.tokens with
  | none => simp [htok]
  | some tokens =>
    simp only [htok] at h ⊢
    by_cases hexp : tokens.expires_at ≤ env.now
    · cases hr : env.refreshResult with
      | none => simp [hexp, hr]
      | some r => simp [hexp, hr] at h
    · simp [hexp] at h

theorem hasEvent_insert_self (cal : Calendar) (fid : String) (body : Event) :
    (cal.insert fid body).hasEvent fid = true := by
  simp [Calendar.insert, Calendar.hasEvent]

theorem getValidTokens_fast (env : Env) (db : DB) (tok : OAuthTokens)
    (htok : db.tokens = some tok) (hfast : env.now < tok.expires_at) :
    getValidTokens env db = (some tok, db) := by
  unfold getValidTokens
  rw [htok]
  simp [not_le.mpr hfast]

/-! ### Concrete scenario inputs used by witnesses and counterexamples -/

/-- A stored credential row that expires at time 1000. -/
def exTok : OAuthTokens :=
  { user_id := "u1", access_token := "old-access",
    refresh_token := "keep-refresh", expires_at := 1000,
    scope := "calendar", token_type := "Bearer", updated_at := 0 }

/-- A never-synced task row with a plain due date and time. -/
def exTask : TaskRow :=
  { id := "t1", title := "Write report", description := none,
    due_date := some "2025-03-10".toList, due_time := some "14:00".toList,
    duration := some 30, status := "todo", priority := 4,
    google_calendar_event_id := none, updated_at := 0 }

/-- The same task already linked to external event "gone". -/
def exTaskSynced : TaskRow :=
  { exTask with google_calendar_event_id := some "gone" }

/-- Database: credential present, task never synced. -/
def exDB : DB := { tokens := some exTok, task := some exTask, syncLog := [] }

/-- Database: credential present, task linked to event "gone". -/
def exDBSynced : DB :=
  { tokens := some exTok, task := some exTaskSynced, syncLog := [] }

/-- Database: no credential row at all. -/
def exDBNoCred : DB := { tokens := none, task := some exTask, syncLog := [] }

/-- An empty external calendar. -/
def exCalEmpty : Calendar := { events := [] }

/-- Environment at time 500 (credential still valid): fast path. -/
def exEnvFast : Env :=
  { now := 500, refreshResult := some { access_token := "unused", expiry_date := 9000 },
    freshEventId := "ev1" }

/-- A second fast-path environment assigning a different fresh id. -/
def exEnvFast2 : Env :=
  { now := 600, refreshResult := some { access_token := "unused", expiry_date := 9000 },
    freshEventId := "ev2" }

/-- Environment at time 2000 (credential expired) where the external refresh
succeeds. -/
def exEnvRefreshOk : Env :=
  { now := 2000, refreshResult := some { access_token := "new-access", expiry_date := 9000 },
    freshEventId := "ev1" }

/-- Environment at time 2000 (credential expired) where the external refresh
throws. -/
def exEnvRefreshFail : Env :=
  { now := 2000, refreshResult := none, freshEventId := "ev1" }

/-- The credential row as stored by a successful refresh: the old row with
exactly `access_token`, `expires_at` and `updated_at` replaced (route.ts
lines 43-50). -/
def refreshedRow (tok : OAuthTokens) (r : RefreshedTokens) (now : Int) :
    OAuthTokens :=
  { tok with
    access_token := r.access_token
    expires_at := r.expiry_date
    updated_at := now }

/-! ### Claims -/

/-- Claim C3, counterexample: with the stored credential expired
(`expires_at = 1000 ≤ now = 2000`) and a successful refresh,
`getValidTokens` returns a non-`NotConnected` token record whose
`expires_at` is **not** strictly greater than the current time: the
returned spread `{...tokens, access_token}` keeps the stale `expires_at`.
This refutes "every non-NotConnected result … expires_at strictly greater
than the current time" at a concrete input. -/
theorem claim_C3_counterexample :
    (getValidTokens exEnvRefreshOk exDB).1 =
      some { exTok with access_token := "new-access" } ∧
    ({ exTok with access_token := "new-access" } : OAuthTokens).expires_at ≤
      exEnvRefreshOk.now := by
  constructor
  · rfl
  · decide

/-- Claim C3 (amended): every non-`NotConnected` result of
`getValidTokens` is either (fast path, strict `>` comparison) the stored
token record returned unchanged with no database write, or (refresh path)
the stored record with only `access_token` replaced by the freshly
refreshed token — the returned record keeps the stale `expires_at`, while
the store receives the new expiry. -/
theorem claim_C3_amended (env : Env) (db : DB) (tok res : OAuthTokens)
    (db2 : DB) (htok : db.tokens = some tok)
    (hrun : getValidTokens env db = (some res, db2)) :
    (env.now < tok.expires_at ∧ res = tok ∧ db2 = db) ∨
    (tok.expires_at ≤ env.now ∧ ∃ r, env.refreshResult = some r ∧
      res = { tok with access_token := r.access_token } ∧
      db2.tokens = some (refreshedRow tok r env.now)) := by
  simp only [getValidTokens, htok] at hrun
  by_cases hexp : tok.expires_at ≤ env.now
  · right
    refine ⟨hexp, ?_⟩
    rw [if_pos hexp] at hrun
    cases hr : env.refreshResult with
    | none =>
      rw [hr] at hrun
      exact absurd (congrArg Prod.fst hrun) (by simp)
    | some r =>
      rw [hr] at hrun
      rw [Prod.mk.injEq] at hrun
      obtain ⟨h1, h2⟩ := hrun
      refine ⟨r, rfl, (Option.some_inj.mp h1).symm, ?_⟩
      rw [← h2]
      rfl
  · left
    rw [if_neg hexp] at hrun
    rw [Prod.mk.injEq] at hrun
    obtain ⟨h1, h2⟩ := hrun
    exact ⟨not_le.mp hexp, (Option.some_inj.mp h1).symm, h2.symm⟩

/-- Claim C3 witness: the amended statement instantiated on the concrete
refresh scenario. -/
theorem claim_C3_amended_witness :
    (exEnvRefreshOk.now < exTok.expires_at ∧
      ({ exTok with access_token := "new-access" } : OAuthTokens) = exTok ∧
      (getValidTokens exEnvRefreshOk exDB).2 = exDB) ∨
    (exTok.expires_at ≤ exEnvRefreshOk.now ∧ ∃ r,
      exEnvRefreshOk.refreshResult = some r ∧
      ({ exTok with access_token := "new-access" } : OAuthTokens) =
        { exTok with access_token := r.access_token } ∧
      (getValidTokens exEnvRefreshOk exDB).2.tokens =
        some (refreshedRow exTok r exEnvRefreshOk.now)) :=
  claim_C3_amended exEnvRefreshOk exDB exTok
    { exTok with access_token := "new-access" }
    (getValidTokens exEnvRefreshOk exDB).2 rfl rfl

/-- Claim C4: the database write performed on a successful token refresh
updates only `access_token`, `expires_at` and `updated_at`: the stored row
afterwards is the old row with exactly those three fields replaced, so the
previously stored `refresh_token` (and `user_id`, `scope`, `token_type`)
are untouched — the refresh response has no refresh-token field that could
overwrite it. -/
theorem claim_C4_refresh_preserves_refresh_token (env : Env) (db : DB)
    (tok : OAuthTokens) (r : RefreshedTokens)
    (htok : db.tokens = some tok)
    (hexp : tok.expires_at ≤ env.now)
    (hr : env.refreshResult = some r) :
    (getValidTokens env db).2.tokens = some (refreshedRow tok r env.now) := by
  simp [getValidTokens, htok, if_pos hexp, hr, refreshedRow]

/-- Claim C4 witness: concrete successful refresh; the stored row keeps
`refresh_token = "keep-refresh"`. -/
theorem claim_C4_witness :
    (getValidTokens exEnvRefreshOk exDB).2.tokens =
      some (refreshedRow exTok { access_token := "new-access", expiry_date := 9000 }
        exEnvRefreshOk.now) ∧
    (refreshedRow exTok { access_token := "new-access", expiry_date := 9000 }
        exEnvRefreshOk.now).refresh_token = "keep-refresh" :=
  ⟨claim_C4_refresh_preserves_refresh_token exEnvRefreshOk exDB exTok
      { access_token := "new-access", expiry_date := 9000 } rfl (by decide) rfl,
    rfl⟩

/-- Claim C5: when the stored credential is expired and the external
refresh operation fails, `getValidTokens` returns `NotConnected` (`none`)
and the database — including the stored credential row with its
`refresh_token` — is left completely unchanged; nothing is deleted. -/
theorem claim_C5_refresh_failure_keeps_credential (env : Env) (db : DB)
    (tok : OAuthTokens)
    (htok : db.tokens = some tok)
    (hexp : tok.expires_at ≤ env.now)
    (hfail : env.refreshResult = none) :
    getValidTokens env db = (none, db) := by
  unfold getValidTokens
  rw [htok]
  simp [if_pos hexp, hfail]

/-- Claim C5 witness: concrete failed refresh leaves the row in place. -/
theorem claim_C5_witness :
    getValidTokens exEnvRefreshFail exDB = (none, exDB) ∧
    exDB.tokens = some exTok :=
  ⟨claim_C5_refresh_failure_keeps_credential exEnvRefreshFail exDB exTok
      rfl (by decide) rfl, rfl⟩

/-- Claim C6: when `getValidTokens` yields `NotConnected`, the sync POST
fails fast with the distinguishable needs-authorization response; no
external calendar call is attempted (all call counters zero), and the
database — in particular the task row and its `external_event_id`, and the
sync log — is left unchanged. -/
theorem claim_C6_not_connected_fails_fast (env : Env) (userId taskId : String)
    (action : Option String) (db : DB) (cal : Calendar)
    (hnone : (getValidTokens env db).1 = none) :
    syncPOST env userId taskId action db cal = ⟨.needsAuth, db, cal, .zero⟩ := by
  have hframe := getValidTokens_none_frame env db hnone
  rcases hres : getValidTokens env db with ⟨o, db1⟩
  rw [hres] at hnone hframe
  obtain rfl : o = none := hnone
  obtain rfl : db1 = db := hframe
  unfold syncPOST
  rw [hres]

/-- Claim C6 witness: a user with no credential row gets `needsAuth`; the
unsynced task is untouched and no external call happens. -/
theorem claim_C6_witness :
    syncPOST exEnvFast "u1" "t1" none exDBNoCred exCalEmpty =
      ⟨.needsAuth, exDBNoCred, exCalEmpty, .zero⟩ ∧
    exDBNoCred.task = some exTask ∧
    exTask.google_calendar_event_id = none :=
  ⟨claim_C6_not_connected_fails_fast exEnvFast "u1" "t1" none exDBNoCred
      exCalEmpty rfl, rfl, rfl⟩

/-- Duration default in the sense of the amended claim C8: 60 minutes when
the stored duration is absent **or zero** (JS `||` treats 0 as falsy), the
stored value otherwise. -/
def durationOrDefaultSpec (d : Option Nat) : Nat :=
  match d with
  | none => 60
  | some n => if n = 0 then 60 else n

theorem jsDurationOr60_eq_spec (d : Option Nat) :
    jsDurationOr60 d = durationOrDefaultSpec d := by
  cases d <;> rfl

/-- A task whose stored duration is literally 0 minutes. -/
def exTaskDurZero : TaskEvent :=
  { title := "t", status := "todo", priority := 0,
    dueDate := some "2025-03-10".toList, dueTime := some "14:00".toList,
    duration := some 0 }

/-- Claim C8, counterexample: for a task with `duration = 0` (allowed by
the schema: `duration INTEGER`), `createCalendarEvent` builds an end one
hour — not `duration = 0` minutes — after the start, because
`task.duration || 60` treats 0 as falsy.  This refutes "duration
defaulting to 60 when absent" read as: the stated duration is used
whenever present. -/
theorem claim_C8_counterexample :
    exTaskDurZero.duration = some 0 ∧
    (createEventPayload exTaskDurZero).start = some
      { dateTime := some (.parsed "2025-03-10T14:00:00".toList 0),
        date := none, timeZone := some parisTZ } ∧
    (createEventPayload exTaskDurZero).endTime = some
      { dateTime := some (.parsed "2025-03-10T14:00:00".toList 3600000),
        date := none, timeZone := some parisTZ } ∧
    (3600000 : Int) ≠ (0 : Int) * 60 * 1000 := by
  refine ⟨rfl, ?_, ?_, by decide⟩
  · rfl
  · rfl

/-- Claim C8 (amended): for every task with a non-empty `due_date` and
`due_time`, the create payload is a timed event whose start is the date
portion of `due_date` combined with `due_time` (seconds appended) carrying
the fixed configured timezone, and whose end is exactly `duration` minutes
after the start — with the duration defaulting to 60 when absent **or
zero**. -/
theorem claim_C8_timed_event (task : TaskEvent) (d t : List Char)
    (hd : task.dueDate = some d) (hde : d ≠ [])
    (ht : task.dueTime = some t) (hte : t ≠ []) :
    (createEventPayload task).start = some
      { dateTime := some (.parsed (datePortionSpec d ++ ('T' :: (t ++ [':', '0', '0']))) 0),
        date := none, timeZone := some parisTZ } ∧
    (createEventPayload task).endTime = some
      { dateTime := some ((JSInstant.parsed
            (datePortionSpec d ++ ('T' :: (t ++ [':', '0', '0']))) 0).addMs
            ((durationOrDefaultSpec task.duration : Int) * 60 * 1000)),
        date := none, timeZone := some parisTZ } := by
  have hdE : d.isEmpty = false := by
    cases d with
    | nil => exact absurd rfl hde
    | cons c cs => rfl
  have htE : t.isEmpty = false := by
    cases t with
    | nil => exact absurd rfl hte
    | cons c cs => rfl
  have htd : truthy (some d) = true := by simp [truthy, hdE]
  have htt : truthy (some t) = true := by simp [truthy, htE]
  simp [createEventPayload, createStartEnd, htd, htt, hd, ht,
    formatDateForAllDay_eq_datePortionSpec, jsDurationOr60_eq_spec]

/-- A timed task with no stored duration. -/
def exTaskNoDur : TaskEvent :=
  { title := "t", status := "todo", priority := 2,
    dueDate := some "2025-03-10".toList, dueTime := some "09:30".toList,
    duration := none }

/-- Claim C8 witness: concrete timed task with absent duration; the end is
60 minutes after the start. -/
theorem claim_C8_witness :
    (createEventPayload exTaskNoDur).start = some
      { dateTime := some (.parsed (datePortionSpec "2025-03-10".toList ++
          ('T' :: ("09:30".toList ++ [':', '0', '0']))) 0),
        date := none, timeZone := some parisTZ } ∧
    (createEventPayload exTaskNoDur).endTime = some
      { dateTime := some ((JSInstant.parsed (datePortionSpec "2025-03-10".toList ++
          ('T' :: ("09:30".toList ++ [':', '0', '0']))) 0).addMs
          ((durationOrDefaultSpec exTaskNoDur.duration : Int) * 60 * 1000)),
        date := none, timeZone := some parisTZ } :=
  claim_C8_timed_event exTaskNoDur "2025-03-10".toList "09:30".toList
    rfl (by decide) rfl (by decide)

/-- Claim C9: for every task with a non-empty `due_date` and no usable
`due_time`, the create payload is an all-day event whose `date` (start and
end) equals the date portion of `due_date`; and whenever `due_date`
contains an embedded time component (a `'T'`), the date portion is a
proper truncation — the raw string is never used as-is. -/
theorem claim_C9_allday_truncates_date (task : TaskEvent) (d : List Char)
    (hd : task.dueDate = some d) (hde : d ≠ [])
    (ht : truthy task.dueTime = false) :
    (createEventPayload task).start = some
      { dateTime := none, date := some (datePortionSpec d), timeZone := none } ∧
    (createEventPayload task).endTime = some
      { dateTime := none, date := some (datePortionSpec d), timeZone := none } ∧
    (containsT d = true → datePortionSpec d ≠ d) := by
  have hdE : d.isEmpty = false := by
    cases d with
    | nil => exact absurd rfl hde
    | cons c cs => rfl
  have htd : truthy (some d) = true := by simp [truthy, hdE]
  refine ⟨?_, ?_, fun h => datePortionSpec_ne_self_of_containsT d h⟩ <;>
  simp [createEventPayload, createStartEnd, htd, ht, hd,
    formatDateForAllDay_eq_datePortionSpec]

/-- A task whose due date carries an embedded time component and which has
no due time. -/
def exTaskTimestampDate : TaskEvent :=
  { title := "t", status := "done", priority := 1,
    dueDate := some "2025-03-10T00:00:00Z".toList, dueTime := none,
    duration := none }

/-- Claim C9 witness: `due_date = "2025-03-10T00:00:00Z"` with no due time
maps to an all-day event dated `2025-03-10` — truncated, not used as-is. -/
theorem claim_C9_witness :
    ((createEventPayload exTaskTimestampDate).start = some
      { dateTime := none,
        date := some (datePortionSpec "2025-03-10T00:00:00Z".toList),
        timeZone := none } ∧
     (createEventPayload exTaskTimestampDate).endTime = some
      { dateTime := none,
        date := some (datePortionSpec "2025-03-10T00:00:00Z".toList),
        timeZone := none } ∧
     (containsT "2025-03-10T00:00:00Z".toList = true →
       datePortionSpec "2025-03-10T00:00:00Z".toList ≠
         "2025-03-10T00:00:00Z".toList)) ∧
    datePortionSpec "2025-03-10T00:00:00Z".toList = "2025-03-10".toList :=
  ⟨claim_C9_allday_truncates_date exTaskTimestampDate
      "2025-03-10T00:00:00Z".toList rfl (by decide) rfl, by decide⟩

/-- Claim C1: sync of a never-synced task creates exactly one external
event and records its id; an immediately repeated sync with unchanged task
fields takes the patch branch (one patch, zero creates) and leaves
`external_event_id` exactly as the first call stored it. -/
theorem claim_C1_sync_twice_single_create (env1 env2 : Env)
    (userId taskId : String) (db : DB) (cal : Calendar)
    (tok : OAuthTokens) (task : TaskRow)
    (htok : db.tokens = some tok)
    (hfast1 : env1.now < tok.expires_at)
    (hfast2 : env2.now < tok.expires_at)
    (htask : db.task = some task)
    (hunsynced : task.google_calendar_event_id = none) :
    (syncPOST env1 userId taskId none db cal).resp = .created env1.freshEventId ∧
    (syncPOST env1 userId taskId none db cal).calls = ⟨1, 0, 0⟩ ∧
    (syncPOST env1 userId taskId none db cal).db.task = some { task with
      google_calendar_event_id := some env1.freshEventId
      updated_at := env1.now } ∧
    (syncPOST env2 userId taskId none (syncPOST env1 userId taskId none db cal).db
      (syncPOST env1 userId taskId none db cal).cal).resp =
        .updated env1.freshEventId ∧
    (syncPOST env2 userId taskId none (syncPOST env1 userId taskId none db cal).db
      (syncPOST env1 userId taskId none db cal).cal).calls = ⟨0, 1, 0⟩ ∧
    (syncPOST env2 userId taskId none (syncPOST env1 userId taskId none db cal).db
      (syncPOST env1 userId taskId none db cal).cal).db.task =
        (syncPOST env1 userId taskId none db cal).db.task := by
  have hn1 : ¬ tok.expires_at ≤ env1.now := not_le.mpr hfast1
  have hn2 : ¬ tok.expires_at ≤ env2.now := not_le.mpr hfast2
  refine ⟨?_, ?_, ?_, ?_, ?_, ?_⟩ <;>
  simp [syncPOST, getValidTokens, htok, htask, hunsynced, hn1, hn2,
    createCalendarEvent, updateCalendarEvent, Calendar.patch,
    Calendar.hasEvent, Calendar.insert]

/-- Claim C1 witness: concrete never-synced task, two sequential syncs. -/
theorem claim_C1_witness :
    (syncPOST exEnvFast "u1" "t1" none exDB exCalEmpty).resp =
      .created exEnvFast.freshEventId ∧
    (syncPOST exEnvFast "u1" "t1" none exDB exCalEmpty).calls = ⟨1, 0, 0⟩ ∧
    (syncPOST exEnvFast "u1" "t1" none exDB exCalEmpty).db.task = some { exTask with
      google_calendar_event_id := some exEnvFast.freshEventId
      updated_at := exEnvFast.now } ∧
    (syncPOST exEnvFast2 "u1" "t1" none
      (syncPOST exEnvFast "u1" "t1" none exDB exCalEmpty).db
      (syncPOST exEnvFast "u1" "t1" none exDB exCalEmpty).cal).resp =
        .updated exEnvFast.freshEventId ∧
    (syncPOST exEnvFast2 "u1" "t1" none
      (syncPOST exEnvFast "u1" "t1" none exDB exCalEmpty).db
      (syncPOST exEnvFast "u1" "t1" none exDB exCalEmpty).cal).calls = ⟨0, 1, 0⟩ ∧
    (syncPOST exEnvFast2 "u1" "t1" none
      (syncPOST exEnvFast "u1" "t1" none exDB exCalEmpty).db
      (syncPOST exEnvFast "u1" "t1" none exDB exCalEmpty).cal).db.task =
        (syncPOST exEnvFast "u1" "t1" none exDB exCalEmpty).db.task :=
  claim_C1_sync_twice_single_create exEnvFast exEnvFast2 "u1" "t1" exDB
    exCalEmpty exTok exTask rfl (by decide) (by decide) rfl rfl

/-- Claim C2, counterexample: a task linked to external event "gone" that
no longer exists; sync takes the patch branch, the not-found error
propagates to the catch-all: the response is the 500 server error — the
operation **does** error — and `external_event_id` still holds "gone" (the
task is not treated as Unsynced). -/
theorem claim_C2_counterexample :
    (syncPOST exEnvFast "u1" "t1" none exDBSynced exCalEmpty).resp =
      .serverError ∧
    (syncPOST exEnvFast "u1" "t1" none exDBSynced exCalEmpty).db =
      exDBSynced ∧
    exDBSynced.task = some exTaskSynced ∧
    exTaskSynced.google_calendar_event_id = some "gone" := by
  refine ⟨?_, ?_, rfl, rfl⟩ <;> rfl

/-- Claim C2 (amended): when sync is called on a task whose
`external_event_id` is non-null but the external patch reports not-found,
the error propagates: the request fails with the 500 server error, nothing
is written (the task still points at the vanished event, no log entry),
and a subsequent sync on the unchanged state takes the patch branch again
and fails identically — the event is not recreated. -/
theorem claim_C2_patch_not_found_errors (env env2 : Env)
    (userId taskId : String) (db : DB) (cal : Calendar)
    (tok : OAuthTokens) (task : TaskRow) (e : String)
    (htok : db.tokens = some tok)
    (hfast : env.now < tok.expires_at)
    (hfast2 : env2.now < tok.expires_at)
    (htask : db.task = some task)
    (hevent : task.google_calendar_event_id = some e)
    (hmissing : cal.hasEvent e = false) :
    syncPOST env userId taskId none db cal = ⟨.serverError, db, cal, ⟨0, 1, 0⟩⟩ ∧
    syncPOST env2 userId taskId none db cal = ⟨.serverError, db, cal, ⟨0, 1, 0⟩⟩ := by
  have hn : ¬ tok.expires_at ≤ env.now := not_le.mpr hfast
  have hn2 : ¬ tok.expires_at ≤ env2.now := not_le.mpr hfast2
  constructor <;>
  simp [syncPOST, getValidTokens, htok, hn, hn2, htask, hevent,
    updateCalendarEvent, Calendar.patch, hmissing]

/-- Claim C2 amended witness: the concrete "gone" scenario, twice. -/
theorem claim_C2_amended_witness :
    syncPOST exEnvFast "u1" "t1" none exDBSynced exCalEmpty =
      ⟨.serverError, exDBSynced, exCalEmpty, ⟨0, 1, 0⟩⟩ ∧
    syncPOST exEnvFast2 "u1" "t1" none exDBSynced exCalEmpty =
      ⟨.serverError, exDBSynced, exCalEmpty, ⟨0, 1, 0⟩⟩ :=
  claim_C2_patch_not_found_errors exEnvFast exEnvFast2 "u1" "t1" exDBSynced
    exCalEmpty exTok exTaskSynced "gone" rfl (by decide) (by decide) rfl rfl rfl

/-- The DELETE handler never reports an error: its result is literally
built with the success response (external delete failures are swallowed by
the inner try/catch). -/
theorem syncDELETE_always_ok (env : Env) (db : DB) (cal : Calendar) :
    (syncDELETE env db cal).resp = .ok := rfl

/-- Claim C7: unsync of a task whose external event is already gone
attempts the external delete (one delete call), swallows the not-found
error, still clears `external_event_id`, and responds with success; a
second unsync immediately after also succeeds. -/
theorem claim_C7_unsync_tolerant_idempotent (env env2 : Env) (db : DB)
    (cal : Calendar) (tok : OAuthTokens) (task : TaskRow) (e : String)
    (htok : db.tokens = some tok)
    (hfast : env.now < tok.expires_at)
    (htask : db.task = some task)
    (hevent : task.google_calendar_event_id = some e)
    (hmissing : cal.hasEvent e = false) :
    (syncDELETE env db cal).resp = .ok ∧
    (syncDELETE env db cal).calls = ⟨0, 0, 1⟩ ∧
    (syncDELETE env db cal).db.task = some { task with
      google_calendar_event_id := none
      updated_at := env.now } ∧
    (syncDELETE env db cal).cal = cal ∧
    (syncDELETE env2 (syncDELETE env db cal).db (syncDELETE env db cal).cal).resp =
      .ok := by
  have hn : ¬ tok.expires_at ≤ env.now := not_le.mpr hfast
  refine ⟨rfl, ?_, ?_, ?_, rfl⟩ <;>
  simp [syncDELETE, getValidTokens, htok, hn, htask, hevent,
    deleteCalendarEvent, Calendar.deleteEvent, hmissing]

/-- Claim C7 witness: the concrete "gone" scenario, unsync twice. -/
theorem claim_C7_witness :
    (syncDELETE exEnvFast exDBSynced exCalEmpty).resp = .ok ∧
    (syncDELETE exEnvFast exDBSynced exCalEmpty).calls = ⟨0, 0, 1⟩ ∧
    (syncDELETE exEnvFast exDBSynced exCalEmpty).db.task = some { exTaskSynced with
      google_calendar_event_id := none
      updated_at := exEnvFast.now } ∧
    (syncDELETE exEnvFast exDBSynced exCalEmpty).cal = exCalEmpty ∧
    (syncDELETE exEnvFast2 (syncDELETE exEnvFast exDBSynced exCalEmpty).db
      (syncDELETE exEnvFast exDBSynced exCalEmpty).cal).resp = .ok :=
  claim_C7_unsync_tolerant_idempotent exEnvFast exEnvFast2 exDBSynced
    exCalEmpty exTok exTaskSynced "gone" rfl (by decide) rfl rfl rfl

/-- One awaited operation of a single in-flight request, accumulating the
external-call counters. -/
def stepOnce (env : Env) (userId taskId : String)
    (s : SyncPC × DB × Calendar × ExtCalls) : SyncPC × DB × Calendar × ExtCalls :=
  let r := syncStep env userId taskId s.1 s.2.1 s.2.2.1
  (r.1, r.2.1, r.2.2.1, s.2.2.2.plus r.2.2.2)

/-- Run one request alone for five steps (enough to halt on every path). -/
def runAlone (env : Env) (userId taskId : String) (db : DB) (cal : Calendar) :
    SyncPC × DB × Calendar × ExtCalls :=
  stepOnce env userId taskId (stepOnce env userId taskId
    (stepOnce env userId taskId (stepOnce env userId taskId
      (stepOnce env userId taskId (.start, db, cal, .zero)))))

/-- Fidelity of the per-step machine: a request run alone to completion
computes exactly what the straight-line `syncPOST` model computes (for the
sync action), so the interleaving model is the handler cut at its awaits. -/
theorem runAlone_eq_syncPOST (env : Env) (userId taskId : String)
    (db : DB) (cal : Calendar) :
    runAlone env userId taskId db cal =
      (.halted (syncPOST env userId taskId none db cal).resp,
       (syncPOST env userId taskId none db cal).db,
       (syncPOST env userId taskId none db cal).cal,
       (syncPOST env userId taskId none db cal).calls) := by
  rcases hres : getValidTokens env db with ⟨o, db1⟩
  cases o with
  | none =>
    simp [runAlone, stepOnce, syncStep, syncPOST, hres, ExtCalls.plus,
      ExtCalls.zero]
  | some tok =>
    cases htask : db1.task with
    | none =>
      simp [runAlone, stepOnce, syncStep, syncPOST, hres, htask,
        ExtCalls.plus, ExtCalls.zero]
    | some task =>
      cases hev : task.google_calendar_event_id with
      | none =>
        simp [runAlone, stepOnce, syncStep, syncPOST, hres, htask, hev,
          createCalendarEvent, ExtCalls.plus, ExtCalls.zero]
      | some e =>
        cases hupd : updateCalendarEvent cal e (toTaskEvent task) with
        | none =>
          simp [runAlone, stepOnce, syncStep, syncPOST, hres, htask, hev,
            hupd, ExtCalls.plus, ExtCalls.zero]
        | some cal2 =>
          simp [runAlone, stepOnce, syncStep, syncPOST, hres, htask, hev,
            hupd, ExtCalls.plus, ExtCalls.zero]

/-- Claim C10, counterexample: two concurrent syncs of the same
never-synced task, interleaved so that both read the task row before
either writes.  Both execute the create branch: two external events exist
afterwards, two create calls were issued, and the task row holds only the
second request's id ("ev2") — refuting "never both execute the create
branch: exactly one external event is created". -/
theorem claim_C10_counterexample :
    (runSchedule exEnvFast exEnvFast2 "u1" "t1" bothReadFirstSchedule
      (initTwoSyncs exDB exCalEmpty)).calls.creates = 2 ∧
    (runSchedule exEnvFast exEnvFast2 "u1" "t1" bothReadFirstSchedule
      (initTwoSyncs exDB exCalEmpty)).cal.events.length = 2 ∧
    ((runSchedule exEnvFast exEnvFast2 "u1" "t1" bothReadFirstSchedule
      (initTwoSyncs exDB exCalEmpty)).db.task.map
        (fun t => t.google_calendar_event_id)) = some (some "ev2") ∧
    (runSchedule exEnvFast exEnvFast2 "u1" "t1" bothReadFirstSchedule
      (initTwoSyncs exDB exCalEmpty)).pcA = .halted (.created "ev1") ∧
    (runSchedule exEnvFast exEnvFast2 "u1" "t1" bothReadFirstSchedule
      (initTwoSyncs exDB exCalEmpty)).pcB = .halted (.created "ev2") :=
  ⟨rfl, rfl, rfl, rfl, rfl⟩

/-- Claim C10 (amended): the create/patch decision is taken from the task
row as read, and the write-back of `external_event_id` is an unconditional
update (no compare-and-set), so two concurrent syncs of a never-synced
task **can** both execute the create branch: under the interleaving where
both read before either writes, two create calls are issued, the external
calendar gains two events, and the task row ends holding the id of the
request that wrote last. -/
theorem claim_C10_race_double_create (envA envB : Env)
    (userId taskId : String) (db : DB) (cal : Calendar)
    (tok : OAuthTokens) (task : TaskRow)
    (htok : db.tokens = some tok)
    (hfA : envA.now < tok.expires_at)
    (hfB : envB.now < tok.expires_at)
    (htask : db.task = some task)
    (hunsynced : task.google_calendar_event_id = none) :
    (runSchedule envA envB userId taskId bothReadFirstSchedule
      (initTwoSyncs db cal)).calls.creates = 2 ∧
    (runSchedule envA envB userId taskId bothReadFirstSchedule
      (initTwoSyncs db cal)).cal.events.length = cal.events.length + 2 ∧
    (runSchedule envA envB userId taskId bothReadFirstSchedule
      (initTwoSyncs db cal)).db.task = some { task with
        google_calendar_event_id := some envB.freshEventId
        updated_at := envB.now } ∧
    (runSchedule envA envB userId taskId bothReadFirstSchedule
      (initTwoSyncs db cal)).pcA = .halted (.created envA.freshEventId) ∧
    (runSchedule envA envB userId taskId bothReadFirstSchedule
      (initTwoSyncs db cal)).pcB = .halted (.created envB.freshEventId) := by
  have hnA : ¬ tok.expires_at ≤ envA.now := not_le.mpr hfA
  have hnB : ¬ tok.expires_at ≤ envB.now := not_le.mpr hfB
  refine ⟨?_, ?_, ?_, ?_, ?_⟩ <;>
  simp [runSchedule, bothReadFirstSchedule, initTwoSyncs, interleaveStep,
    syncStep, getValidTokens, htok, hnA, hnB, htask, hunsynced,
    createCalendarEvent, Calendar.insert, ExtCalls.plus, ExtCalls.zero]

/-- Claim C10 witness: the racing schedule on the concrete initial state. -/
theorem claim_C10_race_witness :
    (runSchedule exEnvFast exEnvFast2 "u2" "t2" bothReadFirstSchedule
      (initTwoSyncs exDB exCalEmpty)).calls.creates = 2 ∧
    (runSchedule exEnvFast exEnvFast2 "u2" "t2" bothReadFirstSchedule
      (initTwoSyncs exDB exCalEmpty)).cal.events.length =
        exCalEmpty.events.length + 2 ∧
    (runSchedule exEnvFast exEnvFast2 "u2" "t2" bothReadFirstSchedule
      (initTwoSyncs exDB exCalEmpty)).db.task = some { exTask with
        google_calendar_event_id := some exEnvFast2.freshEventId
        updated_at := exEnvFast2.now } ∧
    (runSchedule exEnvFast exEnvFast2 "u2" "t2" bothReadFirstSchedule
      (initTwoSyncs exDB exCalEmpty)).pcA =
        .halted (.created exEnvFast.freshEventId) ∧
    (runSchedule exEnvFast exEnvFast2 "u2" "t2" bothReadFirstSchedule
      (initTwoSyncs exDB exCalEmpty)).pcB =
        .halted (.created exEnvFast2.freshEventId) :=
  claim_C10_race_double_create exEnvFast exEnvFast2 "u2" "t2" exDB exCalEmpty
    exTok exTask rfl (by decide) (by decide) rfl rfl

end PTW
